import Mathlib

/-!
Verification of the error-classification layer (`exception-wrapper.ts`)
and the HTTP client middleware (`client.ts`) of the iDrive desktop
synchronization engine.

The TypeScript source is embedded shallowly: exceptions and HTTP
responses become Lean structures, the effectful calls (structured
logging, connectivity-issue notifications, `USER_LOGGED_OUT` events)
become explicit event lists returned alongside the result, and the
`switch (true)` dispatch becomes nested `if` in source order.
-/

/-- Substring check on character lists: does `pat` occur contiguously in `s`?
Models JavaScript `String.prototype.includes`. -/
def listStartsWith : List Char → List Char → Bool
  | [], _ => true
  | _ :: _, [] => false
  | a :: as, b :: bs => a == b && listStartsWith as bs

/-- Does `pat` occur as a contiguous run inside `s`? -/
def listHasSubstring (pat : List Char) : List Char → Bool
  | [] => listStartsWith pat []
  | c :: rest => listStartsWith pat (c :: rest) || listHasSubstring pat rest

/-- `strIncludes s pat` models the JavaScript call `s.includes(pat)`. -/
def strIncludes (s pat : String) : Bool :=
  listHasSubstring pat.data s.data

/-! ## Raw failures (the `exc : unknown` argument) -/

/-- A raw JavaScript failure value as seen by the exception wrapper.
The fields record exactly the observations the wrapper's code and its
helpers make of the value: whether it is a `SyntaxError`, whether it is
some other `Error`, its `.message` property, its `String(exc)` rendering,
and the two classification attributes of the spec taxonomy. -/
structure Exc where
  /-- `exc instanceof SyntaxError`. -/
  isSyntaxError : Bool
  /-- the value is an `Error` instance that is not a `SyntaxError`. -/
  isOtherError : Bool
  /-- the `.message` property (meaningful when the value is an `Error`). -/
  message : String
  /-- the `String(exc)` rendering used for non-`Error` values. -/
  asString : String
  /-- Modelled from the spec: the failure originates from an explicit
  cancellation signal (the ABORTED class); the helper `isAbortError`
  from `error-helpers.ts` is not in the sources. -/
  fromAbortSignal : Bool
  /-- Modelled from the spec: the failure is a connectivity/DNS/timeout
  class failure (the NETWORK class); the helper
  `isNetworkConnectivityError` from `error-helpers.ts` is not in the
  sources. -/
  isConnectivityFailure : Bool
deriving DecidableEq

/-- `exc instanceof Error`: in JavaScript a `SyntaxError` is an `Error`. -/
def Exc.isError (exc : Exc) : Bool :=
  exc.isSyntaxError || exc.isOtherError

/-- Modelled from the spec: `isAbortError` from `error-helpers.ts`
(not in the sources) recognizes failures originating from an explicit
cancellation signal. -/
def isAbortError (exc : Exc) : Bool :=
  exc.fromAbortSignal

/-- Modelled from the spec: `isNetworkConnectivityError` from
`error-helpers.ts` (not in the sources) recognizes connectivity/DNS/
timeout class failures. -/
def isNetworkConnectivityError (exc : Exc) : Bool :=
  exc.isConnectivityFailure

/-- `isJsonParseException` from `exception-wrapper.ts`: a `SyntaxError`
whose message contains one of the common JSON parse error substrings. -/
def isJsonParseException (exc : Exc) : Bool :=
  if exc.isSyntaxError then
    strIncludes exc.message "Unexpected token" ||
    strIncludes exc.message "JSON" ||
    strIncludes exc.message "Unexpected end of JSON" ||
    strIncludes exc.message "Unexpected string in JSON"
  else
    false

/-! ## `parseException` -/

/-- The `excMessage` value passed to the structured logger. -/
inductive ExcMessage where
  /-- Modelled from the spec: `fetchExceptionSchema.safeParse(exc).data`
  (the zod schema is in `error-helpers.ts`, not in the sources); the
  parse result is a function of the raw failure. -/
  | fetchParsed (exc : Exc)
  /-- the fixed string literal `'Aborted'`. -/
  | aborted
  /-- the JSON-parse diagnostic object `{ error, message, hint }`. -/
  | jsonParse (error : String) (message : String) (hint : String)
  /-- the raw failure value, passed unchanged. -/
  | raw (exc : Exc)
deriving DecidableEq

/-- Result of `parseException` in `exception-wrapper.ts`. -/
structure ParseResult where
  isAbort : Bool
  isNetwork : Bool
  isJsonParseError : Bool
  excMessage : ExcMessage
deriving DecidableEq

/-- The fixed hint string of the JSON-parse diagnostic object. -/
def jsonParseHint : String :=
  "The server may have returned HTML or another non-JSON response. Check the logs above for response details."

/-- `parseException` from `exception-wrapper.ts`: computes the three
classification flags and selects the logged message by a `switch (true)`
checking `isNetwork`, then `isAbort`, then `isJsonParseError`, with the
raw failure as default. -/
def parseException (exc : Exc) : ParseResult :=
  let isAbort := isAbortError exc
  let isNetwork := isNetworkConnectivityError exc
  let isJsonParseError := isJsonParseException exc
  if isNetwork then
    ⟨isAbort, isNetwork, isJsonParseError, ExcMessage.fetchParsed exc⟩
  else if isAbort then
    ⟨isAbort, isNetwork, isJsonParseError, ExcMessage.aborted⟩
  else if isJsonParseError then
    ⟨isAbort, isNetwork, isJsonParseError,
      ExcMessage.jsonParse "JSON Parse Error"
        (if exc.isError then exc.message else exc.asString) jsonParseHint⟩
  else
    ⟨isAbort, isNetwork, isJsonParseError, ExcMessage.raw exc⟩

/-! ## `exceptionWrapper` -/

/-- The argument object of `logger.error` inside `exceptionWrapper`
(`{ ...loggerBody, msg, retry, exc }`); `logger.error` returns it. -/
structure WrapperLogRecord where
  msg : String
  retry : Nat
  exc : ExcMessage
deriving DecidableEq

/-- The error codes `exceptionWrapper` constructs
(`new DriveServerWipError(code, loggedError)`). -/
inductive WipErrorCode where
  | NETWORK
  | ABORTED
  | UNKNOWN
deriving DecidableEq

/-- Modelled from the spec: `DriveServerWipError` from `error.types.ts`
(not in the sources) is the typed result returned to the caller, holding
the classified kind and the logged record. -/
structure DriveServerWipError where
  code : WipErrorCode
  loggedError : WrapperLogRecord
deriving DecidableEq

/-- Externally visible effects of one `exceptionWrapper` call, in
program order. -/
inductive WrapperEvent where
  /-- one `logger.error` call with its structured record. -/
  | logError (rec : WrapperLogRecord)
  /-- `ipcRendererSyncEngine.send('ADD_GENERAL_ISSUE', networkErrorIssue)`
  (renderer process). -/
  | addGeneralIssueIpc
  /-- direct `addGeneralIssue(networkErrorIssue)` call (main process). -/
  | addGeneralIssueDirect
deriving DecidableEq

/-- `exceptionWrapper` from `exception-wrapper.ts`: parses the failure,
logs once, and dispatches by a `switch (true)` checking `isNetwork`,
then `isAbort`, with UNKNOWN as default. `processIsRenderer` models
`process.type === 'renderer'`. Returns the typed error together with
the list of effects in program order. -/
def exceptionWrapper (loggerBodyMsg : String) (exc : Exc) (retry : Nat)
    (processIsRenderer : Bool) : DriveServerWipError × List WrapperEvent :=
  let p := parseException exc
  let loggedError : WrapperLogRecord :=
    { msg := loggerBodyMsg ++ " was not successful", retry := retry, exc := p.excMessage }
  let logged := [WrapperEvent.logError loggedError]
  if p.isNetwork then
    (⟨WipErrorCode.NETWORK, loggedError⟩,
      logged ++ [if processIsRenderer then WrapperEvent.addGeneralIssueIpc
                 else WrapperEvent.addGeneralIssueDirect])
  else if p.isAbort then
    (⟨WipErrorCode.ABORTED, loggedError⟩, logged)
  else
    (⟨WipErrorCode.UNKNOWN, loggedError⟩, logged)

/-- The `logger.error` records among a wrapper call's effects. -/
def wrapperLogs : List WrapperEvent → List WrapperLogRecord
  | [] => []
  | WrapperEvent.logError rec :: rest => rec :: wrapperLogs rest
  | WrapperEvent.addGeneralIssueIpc :: rest => wrapperLogs rest
  | WrapperEvent.addGeneralIssueDirect :: rest => wrapperLogs rest

/-- Whether a connectivity-issue notification (`ADD_GENERAL_ISSUE` /
`addGeneralIssue`) appears among a wrapper call's effects. -/
def emitsNetworkIssue : List WrapperEvent → Bool
  | [] => false
  | WrapperEvent.addGeneralIssueIpc :: _ => true
  | WrapperEvent.addGeneralIssueDirect :: _ => true
  | WrapperEvent.logError _ :: rest => emitsNetworkIssue rest

/-- Whether an `ExcMessage` is the JSON-parse diagnostic object. -/
def ExcMessage.isJsonParseHint : ExcMessage → Bool
  | ExcMessage.jsonParse _ _ _ => true
  | _ => false

/-! ## HTTP client middleware (`client.ts`) -/

/-- An HTTP response as observed by `middleware.onResponse`: status,
status text, header list (names matched case-insensitively, as the
Fetch `Headers` interface does), and the body text. The body of a real
`Response` clone is read by `text()`; the model reads it directly, so
the defensive `catch` branch for an unreadable body is unreachable. -/
structure HttpResponse where
  status : Nat
  statusText : String
  headers : List (String × String)
  body : String
deriving DecidableEq

/-- ASCII lowercasing of one character (header names are ASCII). -/
def asciiLower (c : Char) : Char :=
  if c.toNat ≥ 65 && c.toNat ≤ 90 then Char.ofNat (c.toNat + 32) else c

/-- ASCII lowercasing of a header name. -/
def lowerName (s : String) : String :=
  String.mk (s.data.map asciiLower)

/-- `headers.get(name)`: case-insensitive lookup of a header value, as
the Fetch `Headers` interface performs it. -/
def headersGet (hs : List (String × String)) (name : String) : Option String :=
  (hs.find? fun h => lowerName h.1 == lowerName name).map fun h => h.2

/-- The record logged for an unexpected (non-JSON) response content type. -/
structure UnexpectedLog where
  msg : String
  endpoint : String
  status : Nat
  statusText : String
  contentType : Option String
  responseHeaders : List (String × String)
  responseBody : String
deriving DecidableEq

/-- Externally visible effects of one `onResponse` call, in program
order. -/
inductive ClientEvent where
  /-- `USER_LOGGED_OUT`, via the sync-engine IPC when `viaIpc`, via the
  event bus otherwise. -/
  | userLoggedOut (viaIpc : Bool)
  /-- one `logger.error` call with the unexpected-content-type record. -/
  | unexpectedLog (rec : UnexpectedLog)
deriving DecidableEq

/-- `contentType?.includes('application/json')` coerced to boolean
(an absent content type is not JSON). -/
def isJsonContentType (r : HttpResponse) : Bool :=
  match headersGet r.headers "content-type" with
  | some ct => strIncludes ct "application/json"
  | none => false

/-- `response.status === 204 || response.headers.get('Content-Length') === '0'`. -/
def isEmptyResponse (r : HttpResponse) : Bool :=
  r.status == 204 || headersGet r.headers "Content-Length" == some "0"

/-- The maximal logged response body length (`MAX_RESPONSE_BODY_LOG_LENGTH`). -/
def MAX_RESPONSE_BODY_LOG_LENGTH : Nat := 500

/-- `s.substring(0, n)`: the first `n` characters of `s` (all of `s`
when it is shorter). -/
def jsSubstringTo (s : String) (n : Nat) : String :=
  String.mk (s.data.take n)

/-- `middleware.onResponse` from `client.ts`: on a 401 status emits
`USER_LOGGED_OUT` (IPC in a renderer process, event bus otherwise);
then, for a non-empty response whose content type is not JSON, logs one
record with full diagnostic context, the body truncated to
`MAX_RESPONSE_BODY_LOG_LENGTH` characters. Returns the effects in
program order. -/
def onResponse (processIsRenderer : Bool) (r : HttpResponse)
    (schemaPath : String) : List ClientEvent :=
  let unauthorized :=
    if r.status == 401 then [ClientEvent.userLoggedOut processIsRenderer] else []
  let shouldLogResponse := !isEmptyResponse r && !isJsonContentType r
  let logs :=
    if shouldLogResponse then
      [ClientEvent.unexpectedLog
        { msg := "Unexpected response content type"
          endpoint := schemaPath
          status := r.status
          statusText := r.statusText
          contentType := headersGet r.headers "content-type"
          responseHeaders := r.headers
          responseBody := jsSubstringTo r.body MAX_RESPONSE_BODY_LOG_LENGTH }]
    else []
  unauthorized ++ logs

/-- The unexpected-content-type log records among an `onResponse`
call's effects. -/
def clientLogs : List ClientEvent → List UnexpectedLog
  | [] => []
  | ClientEvent.unexpectedLog rec :: rest => rec :: clientLogs rest
  | ClientEvent.userLoggedOut _ :: rest => clientLogs rest

/-! ## Normal forms of the embedded functions -/

/-- The classification flags of `parseException` are exactly the three
helper predicates applied to the raw failure. -/
theorem parseException_flags (exc : Exc) :
    (parseException exc).isAbort = isAbortError exc ∧
    (parseException exc).isNetwork = isNetworkConnectivityError exc ∧
    (parseException exc).isJsonParseError = isJsonParseException exc := by
  simp only [parseException]
  split_ifs <;> exact ⟨rfl, rfl, rfl⟩

/-- The logged message selected by `parseException`, by the precedence
of its `switch (true)`: network, then abort, then JSON parse, then the
raw failure. -/
theorem parseException_excMessage (exc : Exc) :
    (parseException exc).excMessage =
      (if isNetworkConnectivityError exc then ExcMessage.fetchParsed exc
       else if isAbortError exc then ExcMessage.aborted
       else if isJsonParseException exc then
         ExcMessage.jsonParse "JSON Parse Error"
           (if exc.isError then exc.message else exc.asString) jsonParseHint
       else ExcMessage.raw exc) := by
  simp only [parseException]
  split_ifs <;> rfl

/-- The structured record every `exceptionWrapper` call logs. -/
def wrapperRecord (loggerBodyMsg : String) (exc : Exc) (retry : Nat) :
    WrapperLogRecord :=
  { msg := loggerBodyMsg ++ " was not successful", retry := retry,
    exc := (parseException exc).excMessage }

/-- Normal form of `exceptionWrapper`: the returned code follows the
network-then-abort-then-default precedence, the logged record is
`wrapperRecord`, and the effect list is the one log plus, exactly in the
network case, one connectivity-issue notification routed by the process
type. -/
theorem exceptionWrapper_eq (msg : String) (exc : Exc) (retry : Nat) (p : Bool) :
    exceptionWrapper msg exc retry p =
      (⟨if isNetworkConnectivityError exc then WipErrorCode.NETWORK
        else if isAbortError exc then WipErrorCode.ABORTED
        else WipErrorCode.UNKNOWN,
        wrapperRecord msg exc retry⟩,
       WrapperEvent.logError (wrapperRecord msg exc retry) ::
         (if isNetworkConnectivityError exc then
            [if p then WrapperEvent.addGeneralIssueIpc
             else WrapperEvent.addGeneralIssueDirect]
          else [])) := by
  simp only [exceptionWrapper, wrapperRecord, (parseException_flags exc).1,
    (parseException_flags exc).2.1]
  split_ifs <;> rfl

/-! ## Claims about the error classifier -/

/-- C1 (counterexample): the claimed precedence ABORTED-before-NETWORK
fails on the code. `exceptionWrapper`'s `switch (true)` checks
`isNetwork` first, so a failure qualifying both as an abort failure and
as a network-connectivity failure is classified NETWORK, not ABORTED. -/
theorem abortedPrecedence_counterexample :
    isAbortError ⟨false, true, "request aborted", "ra", true, true⟩ = true ∧
    isNetworkConnectivityError ⟨false, true, "request aborted", "ra", true, true⟩ = true ∧
    (exceptionWrapper "Test request" ⟨false, true, "request aborted", "ra", true, true⟩ 1
        false).1.code ≠ WipErrorCode.ABORTED := by
  decide

/-- C1 (amended): the classifier checks NETWORK before ABORTED: an
abort failure is classified ABORTED exactly when it does not also
qualify as a network-connectivity failure; when it qualifies as both,
it is classified NETWORK. -/
theorem abortedPrecedence_amended (msg : String) (exc : Exc) (retry : Nat) (p : Bool)
    (hab : isAbortError exc = true) :
    (exceptionWrapper msg exc retry p).1.code =
      (if isNetworkConnectivityError exc then WipErrorCode.NETWORK
       else WipErrorCode.ABORTED) := by
  cases hnet : isNetworkConnectivityError exc <;>
    simp [exceptionWrapper_eq, hab, hnet]

/-- Witness for C1 (amended) at a concrete abort-only failure. -/
theorem abortedPrecedence_amended_witness :
    isAbortError ⟨false, true, "canceled", "c", true, false⟩ = true ∧
    (exceptionWrapper "Req" ⟨false, true, "canceled", "c", true, false⟩ 1 true).1.code =
      (if isNetworkConnectivityError ⟨false, true, "canceled", "c", true, false⟩ then
        WipErrorCode.NETWORK
       else WipErrorCode.ABORTED) :=
  ⟨by decide,
   abortedPrecedence_amended "Req" ⟨false, true, "canceled", "c", true, false⟩ 1 true (by decide)⟩

/-- C2: for every input failure the wrapper logs exactly one structured
record — the very record embedded in the returned typed error — and
always returns a `DriveServerWipError` whose code is one of the
taxonomy codes; the embedding is a total function, so no exception
escapes this boundary. -/
theorem wrapper_logsOnce_returnsTyped (msg : String) (exc : Exc) (retry : Nat) (p : Bool) :
    wrapperLogs (exceptionWrapper msg exc retry p).2 =
      [(exceptionWrapper msg exc retry p).1.loggedError] ∧
    ((exceptionWrapper msg exc retry p).1.code = WipErrorCode.NETWORK ∨
     (exceptionWrapper msg exc retry p).1.code = WipErrorCode.ABORTED ∨
     (exceptionWrapper msg exc retry p).1.code = WipErrorCode.UNKNOWN) := by
  cases hnet : isNetworkConnectivityError exc <;>
    cases hab : isAbortError exc <;> cases p <;>
      simp [exceptionWrapper_eq, wrapperLogs, hnet, hab]

/-- C7: the classified kind is a pure function of the raw failure
alone: it does not depend on the logger body, the attempt count, or the
process type, so two invocations of `exceptionWrapper` on the same raw
failure always produce the same typed error kind. -/
theorem classification_pure (exc : Exc) (m₁ m₂ : String) (r₁ r₂ : Nat) (p₁ p₂ : Bool) :
    (exceptionWrapper m₁ exc r₁ p₁).1.code = (exceptionWrapper m₂ exc r₂ p₂).1.code := by
  simp [exceptionWrapper_eq]

/-- C4: a failure that is neither an abort failure nor a
network-connectivity failure is returned with kind UNKNOWN — a JSON
parse failure (the MALFORMED_RESPONSE situation) included — and when it
matches no other class (not a JSON parse failure either), the raw
failure value is passed unchanged to the logger. -/
theorem unknownDefault_classification (msg : String) (exc : Exc) (retry : Nat) (p : Bool)
    (hab : isAbortError exc = false) (hnet : isNetworkConnectivityError exc = false) :
    (exceptionWrapper msg exc retry p).1.code = WipErrorCode.UNKNOWN ∧
    (isJsonParseException exc = false →
      (exceptionWrapper msg exc retry p).1.loggedError.exc = ExcMessage.raw exc) := by
  refine ⟨by simp [exceptionWrapper_eq, hab, hnet], fun hjson => ?_⟩
  simp [exceptionWrapper_eq, wrapperRecord, parseException_excMessage, hab, hnet, hjson]

/-- Witness for C4 at a concrete plain failure. -/
theorem unknownDefault_classification_witness :
    (exceptionWrapper "Fetch items" ⟨false, true, "boom", "Error: boom", false, false⟩ 1
        false).1.code = WipErrorCode.UNKNOWN ∧
    (isJsonParseException ⟨false, true, "boom", "Error: boom", false, false⟩ = false →
      (exceptionWrapper "Fetch items" ⟨false, true, "boom", "Error: boom", false, false⟩ 1
          false).1.loggedError.exc =
        ExcMessage.raw ⟨false, true, "boom", "Error: boom", false, false⟩) :=
  unknownDefault_classification "Fetch items" ⟨false, true, "boom", "Error: boom", false, false⟩
    1 false (by decide) (by decide)

/-- C5: a connectivity-issue notification (`ADD_GENERAL_ISSUE`) is
emitted if and only if the returned kind is NETWORK, and the kind is
NETWORK exactly on connectivity-class failures. -/
theorem networkIssue_iff (msg : String) (exc : Exc) (retry : Nat) (p : Bool) :
    (emitsNetworkIssue (exceptionWrapper msg exc retry p).2 = true ↔
      (exceptionWrapper msg exc retry p).1.code = WipErrorCode.NETWORK) ∧
    ((exceptionWrapper msg exc retry p).1.code = WipErrorCode.NETWORK ↔
      isNetworkConnectivityError exc = true) := by
  cases hnet : isNetworkConnectivityError exc <;>
    cases hab : isAbortError exc <;> cases p <;>
      simp [exceptionWrapper_eq, emitsNetworkIssue, hnet, hab]

/-- C6 (counterexample): the claim fails for an abort failure that
also qualifies as a network-connectivity failure: the code classifies
it NETWORK and does not log the fixed `'Aborted'` message. -/
theorem abortBenign_counterexample :
    isAbortError ⟨false, true, "aborted by signal", "ab", true, true⟩ = true ∧
    (exceptionWrapper "Upload file" ⟨false, true, "aborted by signal", "ab", true, true⟩ 2
        true).1.code = WipErrorCode.NETWORK ∧
    (exceptionWrapper "Upload file" ⟨false, true, "aborted by signal", "ab", true, true⟩ 2
        true).1.loggedError.exc ≠ ExcMessage.aborted := by
  decide

/-- C6 (amended): for every abort failure that is not also a
network-connectivity failure, the wrapper returns kind ABORTED, logs
the fixed `'Aborted'` message instead of the raw failure, and emits no
connectivity-issue notification (the benign outcome). -/
theorem abortBenign_amended (msg : String) (exc : Exc) (retry : Nat) (p : Bool)
    (hab : isAbortError exc = true) (hnet : isNetworkConnectivityError exc = false) :
    (exceptionWrapper msg exc retry p).1.code = WipErrorCode.ABORTED ∧
    (exceptionWrapper msg exc retry p).1.loggedError.exc = ExcMessage.aborted ∧
    emitsNetworkIssue (exceptionWrapper msg exc retry p).2 = false := by
  simp [exceptionWrapper_eq, wrapperRecord, parseException_excMessage, emitsNetworkIssue,
    hab, hnet]

/-- Witness for C6 (amended) at the model of
`new DOMException('The operation was aborted', 'AbortError')`. -/
theorem abortBenign_amended_witness :
    (exceptionWrapper "Test request" ⟨false, true, "The operation was aborted", "ab", true,
        false⟩ 1 false).1.code = WipErrorCode.ABORTED ∧
    (exceptionWrapper "Test request" ⟨false, true, "The operation was aborted", "ab", true,
        false⟩ 1 false).1.loggedError.exc = ExcMessage.aborted ∧
    emitsNetworkIssue (exceptionWrapper "Test request" ⟨false, true,
        "The operation was aborted", "ab", true, false⟩ 1 false).2 = false :=
  abortBenign_amended "Test request" ⟨false, true, "The operation was aborted", "ab", true,
    false⟩ 1 false (by decide) (by decide)

/-- Eliminating `isJsonParseException`: it holds only for a
`SyntaxError` whose message contains one of the recognized substrings. -/
theorem isJsonParseException_elim (exc : Exc) (h : isJsonParseException exc = true) :
    exc.isSyntaxError = true ∧
      (strIncludes exc.message "Unexpected token" ||
       strIncludes exc.message "JSON" ||
       strIncludes exc.message "Unexpected end of JSON" ||
       strIncludes exc.message "Unexpected string in JSON") = true := by
  unfold isJsonParseException at h
  cases hse : exc.isSyntaxError
  · rw [hse] at h
    simp at h
  · rw [hse] at h
    simp at h
    refine ⟨rfl, ?_⟩
    simpa using h

/-- C10 (counterexample): the unconditional claim fails: a
`SyntaxError` whose message contains none of the recognized substrings
but which qualifies as a network-connectivity failure is classified
NETWORK rather than UNKNOWN, and the raw failure is not what is
logged. -/
theorem jsonParse_recognition_counterexample :
    (⟨true, false, "Some unrelated parse failure", "s3", false, true⟩ : Exc).isSyntaxError
        = true ∧
    (strIncludes "Some unrelated parse failure" "Unexpected token" ||
     strIncludes "Some unrelated parse failure" "JSON" ||
     strIncludes "Some unrelated parse failure" "Unexpected end of JSON" ||
     strIncludes "Some unrelated parse failure" "Unexpected string in JSON") = false ∧
    (exceptionWrapper "Req" ⟨true, false, "Some unrelated parse failure", "s3", false, true⟩
        1 false).1.code ≠ WipErrorCode.UNKNOWN ∧
    (exceptionWrapper "Req" ⟨true, false, "Some unrelated parse failure", "s3", false, true⟩
        1 false).1.loggedError.exc ≠
      ExcMessage.raw ⟨true, false, "Some unrelated parse failure", "s3", false, true⟩ := by
  decide

/-- C10 (amended): the JSON-parse diagnostic (with the `'JSON Parse
Error'` context and hint) is logged only for a `SyntaxError` whose
message contains one of the recognized substrings; a `SyntaxError`
matching none of them that qualifies as neither an abort nor a
network-connectivity failure is classified UNKNOWN with the raw
failure logged and no diagnostic hint. -/
theorem jsonParse_recognition (exc : Exc) :
    ((parseException exc).excMessage.isJsonParseHint = true →
      exc.isSyntaxError = true ∧
        (strIncludes exc.message "Unexpected token" ||
         strIncludes exc.message "JSON" ||
         strIncludes exc.message "Unexpected end of JSON" ||
         strIncludes exc.message "Unexpected string in JSON") = true) ∧
    (∀ msg retry p, exc.isSyntaxError = true →
      (strIncludes exc.message "Unexpected token" ||
       strIncludes exc.message "JSON" ||
       strIncludes exc.message "Unexpected end of JSON" ||
       strIncludes exc.message "Unexpected string in JSON") = false →
      isAbortError exc = false → isNetworkConnectivityError exc = false →
      (exceptionWrapper msg exc retry p).1.code = WipErrorCode.UNKNOWN ∧
      (exceptionWrapper msg exc retry p).1.loggedError.exc = ExcMessage.raw exc) := by
  constructor
  · rw [parseException_excMessage]
    split_ifs with h1 h2 h3 h4 <;> intro hhint
    · exact absurd hhint (by simp [ExcMessage.isJsonParseHint])
    · exact absurd hhint (by simp [ExcMessage.isJsonParseHint])
    · exact isJsonParseException_elim exc h3
    · exact isJsonParseException_elim exc h3
    · exact absurd hhint (by simp [ExcMessage.isJsonParseHint])
  · intro msg retry p hse hsub hab hnet
    have hjson : isJsonParseException exc = false := by
      unfold isJsonParseException
      rw [hse, hsub]
      simp
    exact ⟨by simp [exceptionWrapper_eq, hab, hnet],
      by simp [exceptionWrapper_eq, wrapperRecord, parseException_excMessage, hab, hnet, hjson]⟩

/-- Witness for C10: a genuine JSON parse `SyntaxError` is recognized,
and a `SyntaxError` with an unrelated message is classified UNKNOWN
with the raw failure logged. -/
theorem jsonParse_recognition_witness :
    ((⟨true, false, "Unexpected token x", "s1", false, false⟩ : Exc).isSyntaxError = true ∧
      (strIncludes (Exc.message ⟨true, false, "Unexpected token x", "s1", false, false⟩)
          "Unexpected token" ||
       strIncludes (Exc.message ⟨true, false, "Unexpected token x", "s1", false, false⟩)
          "JSON" ||
       strIncludes (Exc.message ⟨true, false, "Unexpected token x", "s1", false, false⟩)
          "Unexpected end of JSON" ||
       strIncludes (Exc.message ⟨true, false, "Unexpected token x", "s1", false, false⟩)
          "Unexpected string in JSON") = true) ∧
    ((exceptionWrapper "Req" ⟨true, false, "Some other syntax error", "s2", false, false⟩ 1
        false).1.code = WipErrorCode.UNKNOWN ∧
     (exceptionWrapper "Req" ⟨true, false, "Some other syntax error", "s2", false, false⟩ 1
        false).1.loggedError.exc =
       ExcMessage.raw ⟨true, false, "Some other syntax error", "s2", false, false⟩) :=
  ⟨(jsonParse_recognition ⟨true, false, "Unexpected token x", "s1", false, false⟩).1
      (by decide),
   (jsonParse_recognition ⟨true, false, "Some other syntax error", "s2", false, false⟩).2
      "Req" 1 false (by decide) (by decide) (by decide) (by decide)⟩

/-! ## Claims about the HTTP client middleware -/

/-- The logged body truncation never exceeds the configured bound. -/
theorem jsSubstringTo_length_le (s : String) (n : Nat) :
    (jsSubstringTo s n).length ≤ n :=
  List.length_take_le n s.data

/-- C3: a non-empty response whose content type is not JSON produces
exactly one log record carrying the status code, status text, content
type, response headers, and the body truncated to at most
`MAX_RESPONSE_BODY_LOG_LENGTH` characters; a response with a JSON
content type produces no such record. -/
theorem nonJsonResponse_logged (p : Bool) (r : HttpResponse) (sp : String) :
    (isEmptyResponse r = false → isJsonContentType r = false →
      clientLogs (onResponse p r sp) =
        [{ msg := "Unexpected response content type", endpoint := sp,
           status := r.status, statusText := r.statusText,
           contentType := headersGet r.headers "content-type",
           responseHeaders := r.headers,
           responseBody := jsSubstringTo r.body MAX_RESPONSE_BODY_LOG_LENGTH }] ∧
      (jsSubstringTo r.body MAX_RESPONSE_BODY_LOG_LENGTH).length ≤
        MAX_RESPONSE_BODY_LOG_LENGTH) ∧
    (isJsonContentType r = true → clientLogs (onResponse p r sp) = []) := by
  constructor
  · intro hEmpty hJson
    refine ⟨?_, jsSubstringTo_length_le r.body MAX_RESPONSE_BODY_LOG_LENGTH⟩
    cases h401 : r.status == 401 <;>
      simp [onResponse, clientLogs, hEmpty, hJson, h401]
  · intro hJson
    cases h401 : r.status == 401 <;> cases hEmpty : isEmptyResponse r <;>
      simp [onResponse, clientLogs, hJson, h401, hEmpty]

/-- Witness for C3: an HTML 500 response is logged with its diagnostic
record; a JSON 200 response is not. -/
theorem nonJsonResponse_logged_witness :
    (clientLogs (onResponse false
        ⟨500, "Internal Server Error", [("content-type", "text/html")], "<!doctype html>"⟩
        "/users/refresh") =
      [{ msg := "Unexpected response content type", endpoint := "/users/refresh",
         status := 500, statusText := "Internal Server Error",
         contentType := headersGet [("content-type", "text/html")] "content-type",
         responseHeaders := [("content-type", "text/html")],
         responseBody := jsSubstringTo "<!doctype html>" MAX_RESPONSE_BODY_LOG_LENGTH }] ∧
      (jsSubstringTo "<!doctype html>" MAX_RESPONSE_BODY_LOG_LENGTH).length ≤
        MAX_RESPONSE_BODY_LOG_LENGTH) ∧
    clientLogs (onResponse false
        ⟨200, "OK", [("content-type", "application/json")], "ok"⟩ "/users/refresh") = [] :=
  ⟨(nonJsonResponse_logged false
      ⟨500, "Internal Server Error", [("content-type", "text/html")], "<!doctype html>"⟩
      "/users/refresh").1 (by decide) (by decide),
   (nonJsonResponse_logged false
      ⟨200, "OK", [("content-type", "application/json")], "ok"⟩ "/users/refresh").2
      (by decide)⟩

/-- C8: a 401 response emits `USER_LOGGED_OUT` — routed through the
sync-engine IPC in a renderer process and through the event bus
otherwise — as the first effect, before any content-type logging
decision, for every content type and body. -/
theorem unauthorized_logout_first (p : Bool) (r : HttpResponse) (sp : String)
    (h : r.status = 401) :
    (onResponse p r sp).head? = some (ClientEvent.userLoggedOut p) := by
  cases hLog : (!isEmptyResponse r && !isJsonContentType r) <;>
    simp [onResponse, h, hLog]

/-- Witness for C8 at a concrete 401 response in a renderer process. -/
theorem unauthorized_logout_first_witness :
    (onResponse true ⟨401, "Unauthorized", [("content-type", "application/json")], "ok"⟩
        "/auth").head? = some (ClientEvent.userLoggedOut true) :=
  unauthorized_logout_first true
    ⟨401, "Unauthorized", [("content-type", "application/json")], "ok"⟩ "/auth" (by decide)

/-- C9: an empty response — status 204 or a `Content-Length` header
equal to `'0'` — produces no unexpected-content-type log record,
whatever its content type and status. -/
theorem emptyResponse_noLog (p : Bool) (r : HttpResponse) (sp : String)
    (h : isEmptyResponse r = true) :
    clientLogs (onResponse p r sp) = [] := by
  cases h401 : r.status == 401 <;>
    simp [onResponse, clientLogs, h, h401]

/-- Witness for C9 at a concrete 204 response with a non-JSON content
type. -/
theorem emptyResponse_noLog_witness :
    clientLogs (onResponse false ⟨204, "No Content", [("content-type", "text/plain")], ""⟩
        "/users/refresh") = [] :=
  emptyResponse_noLog false ⟨204, "No Content", [("content-type", "text/plain")], ""⟩
    "/users/refresh" (by decide)
